import Mathlib

/-!
Verification of the fxrecord recorder/runner protocol.

The development embeds, in Lean, the parts of the fxrecord repository that
the claims are about:

* the recorder driver (`src/fxrecorder/src/bin/main.rs`), embedded from the
  source as `fxrecorder`;
* the framed message codec, the typed protocol layer, the recorder and
  runner procedures, and the retry harness.  The Rust sources of these
  components are not part of the provided sources (only their callers and
  their integration tests are), so they are modelled from the specification;
  each such definition carries a doc comment starting with
  `Modelled from the spec:`.

Machine integers are modelled as `Nat` (with `Fin (2 ^ 64)` for the u64
profile size); byte streams are `List Nat` with every element below 256 by
construction; fallible operations return `Except`.
-/

namespace Fxrecord

/-- Modelled from the spec: the `DownloadStatus` enumeration carried by
`SendProfileReply` (§3): one of `Downloading`, `Downloaded`, `Extracted`. -/
inductive DownloadStatus
  | downloading
  | downloaded
  | extracted
deriving DecidableEq, Repr

/-- A u64 value, as carried by the `SendProfile` request. -/
abbrev U64 := Fin (2 ^ 64)

/-- Modelled from the spec: the recorder-to-runner message enum (§3).
`ForeignError` payloads are stringified errors, modelled as `String`. -/
inductive RecorderMessage
  | handshake (restart : Bool)
  | downloadBuild (taskId : String)
  | sendProfile (profileSize : Option U64)
deriving DecidableEq, Repr

/-- Decidable equality for `Except`, used by the message enums below. -/
def exceptDecEq {ε α : Type} [DecidableEq ε] [DecidableEq α] :
    DecidableEq (Except ε α)
  | .error x, .error y =>
    if h : x = y then .isTrue (by rw [h])
    else .isFalse (by intro he; cases he; exact h rfl)
  | .error _, .ok _ => .isFalse (by intro h; cases h)
  | .ok _, .error _ => .isFalse (by intro h; cases h)
  | .ok x, .ok y =>
    if h : x = y then .isTrue (by rw [h])
    else .isFalse (by intro he; cases he; exact h rfl)

instance {ε α : Type} [DecidableEq ε] [DecidableEq α] :
    DecidableEq (Except ε α) := exceptDecEq

/-- Modelled from the spec: the runner-to-recorder message enum (§3). -/
inductive RunnerMessage
  | handshakeReply (result : Except String Unit)
  | downloadBuildReply (result : Except String Unit)
  | sendProfileReply (result : Except String (Option DownloadStatus))
deriving DecidableEq, Repr

/-- Modelled from the spec: recorder-to-runner message kinds (§3). -/
inductive RecorderMessageKind
  | handshake
  | downloadBuild
  | sendProfile
deriving DecidableEq, Repr

/-- Modelled from the spec: runner-to-recorder message kinds (§3). -/
inductive RunnerMessageKind
  | handshakeReply
  | downloadBuildReply
  | sendProfileReply
deriving DecidableEq, Repr

/-- Modelled from the spec: the kind of a recorder-to-runner message. -/
def RecorderMessage.kind : RecorderMessage → RecorderMessageKind
  | .handshake _ => .handshake
  | .downloadBuild _ => .downloadBuild
  | .sendProfile _ => .sendProfile

/-- Modelled from the spec: the kind of a runner-to-recorder message. -/
def RunnerMessage.kind : RunnerMessage → RunnerMessageKind
  | .handshakeReply _ => .handshakeReply
  | .downloadBuildReply _ => .downloadBuildReply
  | .sendProfileReply _ => .sendProfileReply

/-- Modelled from the spec: the common `ProtoError` kind-set (§4.2),
parametrised by the directional kind enum used for `UnexpectedKind`. -/
inductive ProtoError (K : Type)
  | io (msg : String)
  | endOfStream
  | decodeFailed
  | unexpectedKind (expected received : K)
  | foreign (msg : String)
deriving DecidableEq, Repr

/-! ## Byte-level primitives of the framed message codec (§4.1, §6)

Each frame is `[len : u32 BE][kind : u8][payload]`.  The payload encoding is
an implementation choice provided both peers agree (§4.1); the encoding
below is one such choice, fixed for both peers of the model. -/

/-- Big-endian 4-byte encoding of a natural number (the `u32 BE` length). -/
def be32 (n : Nat) : List Nat :=
  [n / 2 ^ 24 % 256, n / 2 ^ 16 % 256, n / 2 ^ 8 % 256, n % 256]

/-- Big-endian 8-byte encoding, for the u64 profile size. -/
def be64 (n : Nat) : List Nat :=
  [n / 2 ^ 56 % 256, n / 2 ^ 48 % 256, n / 2 ^ 40 % 256, n / 2 ^ 32 % 256,
   n / 2 ^ 24 % 256, n / 2 ^ 16 % 256, n / 2 ^ 8 % 256, n % 256]

/-- Decode a big-endian byte list back to a natural number. -/
def beVal (xs : List Nat) : Nat := xs.foldl (fun a b => a * 256 + b) 0

/-- Read exactly `n` bytes from a stream, returning them and the rest;
`none` when the stream is shorter than `n`. -/
def readN (n : Nat) (xs : List Nat) : Option (List Nat × List Nat) :=
  if n ≤ xs.length then some (xs.take n, xs.drop n) else none

/-! ## Payload encodings

Primitive encoders return byte lists; primitive decoders consume a prefix of
the stream and return the decoded value with the remainder. -/

/-- Encode a boolean as one byte. -/
def encBool (b : Bool) : List Nat := [if b then 1 else 0]

/-- Decode a boolean from one byte. -/
def decBool : List Nat → Option (Bool × List Nat)
  | b :: rest =>
    if b = 0 then some (false, rest)
    else if b = 1 then some (true, rest)
    else none
  | [] => none

/-- Encode a string: 4-byte BE character count, then each character's
code point as 4 bytes BE. -/
def encStr (s : String) : List Nat :=
  be32 s.length ++ s.data.flatMap (fun c => be32 c.toNat)

/-- Read `n` characters, each a 4-byte BE code point. -/
def readChars : Nat → List Nat → Option (List Char × List Nat)
  | 0, xs => some ([], xs)
  | n + 1, xs =>
    (readN 4 xs).bind fun p =>
      (readChars n p.2).map fun q => (Char.ofNat (beVal p.1) :: q.1, q.2)

/-- Decode a string. -/
def decStr (xs : List Nat) : Option (String × List Nat) :=
  (readN 4 xs).bind fun p =>
    (readChars (beVal p.1) p.2).map fun q => (String.mk q.1, q.2)

/-- Encode a `Result<(), ForeignError>` payload. -/
def encResultUnit : Except String Unit → List Nat
  | .ok () => [0]
  | .error s => 1 :: encStr s

/-- Decode a `Result<(), ForeignError>` payload. -/
def decResultUnit : List Nat → Option (Except String Unit × List Nat)
  | b :: rest =>
    if b = 0 then some (.ok (), rest)
    else if b = 1 then (decStr rest).map fun p => (.error p.1, p.2)
    else none
  | [] => none

/-- Encode an optional `DownloadStatus`. -/
def encOptStatus : Option DownloadStatus → List Nat
  | none => [0]
  | some .downloading => [1, 0]
  | some .downloaded => [1, 1]
  | some .extracted => [1, 2]

/-- Decode an optional `DownloadStatus`. -/
def decOptStatus : List Nat → Option (Option DownloadStatus × List Nat)
  | b :: rest =>
    if b = 0 then some (none, rest)
    else if b = 1 then
      match rest with
      | t :: rest' =>
        if t = 0 then some (some .downloading, rest')
        else if t = 1 then some (some .downloaded, rest')
        else if t = 2 then some (some .extracted, rest')
        else none
      | [] => none
    else none
  | [] => none

/-- Encode a `Result<Option<DownloadStatus>, ForeignError>` payload. -/
def encResultStatus : Except String (Option DownloadStatus) → List Nat
  | .ok st => 0 :: encOptStatus st
  | .error s => 1 :: encStr s

/-- Decode a `Result<Option<DownloadStatus>, ForeignError>` payload. -/
def decResultStatus :
    List Nat → Option (Except String (Option DownloadStatus) × List Nat)
  | b :: rest =>
    if b = 0 then (decOptStatus rest).map fun p => (.ok p.1, p.2)
    else if b = 1 then (decStr rest).map fun p => (.error p.1, p.2)
    else none
  | [] => none

/-- Encode an optional u64 profile size. -/
def encOptU64 : Option U64 → List Nat
  | none => [0]
  | some n => 1 :: be64 n.val

/-- Decode an optional u64 profile size. -/
def decOptU64 : List Nat → Option (Option U64 × List Nat)
  | b :: rest =>
    if b = 0 then some (none, rest)
    else if b = 1 then
      (readN 8 rest).bind fun p =>
        if h : beVal p.1 < 2 ^ 64 then some (some ⟨beVal p.1, h⟩, p.2) else none
    else none
  | [] => none

/-! ## The framed message codec and the typed protocol layer (§4.1, §4.2) -/

/-- Modelled from the spec: stable kind tags for recorder-to-runner
messages (§6). -/
def RecorderMessageKind.tag : RecorderMessageKind → Nat
  | .handshake => 0
  | .downloadBuild => 1
  | .sendProfile => 2

/-- Modelled from the spec: stable kind tags for runner-to-recorder
messages (§6). -/
def RunnerMessageKind.tag : RunnerMessageKind → Nat
  | .handshakeReply => 0
  | .downloadBuildReply => 1
  | .sendProfileReply => 2

/-- Decode a recorder-to-runner kind tag. -/
def decodeRecorderKind (b : Nat) : Option RecorderMessageKind :=
  if b = 0 then some .handshake
  else if b = 1 then some .downloadBuild
  else if b = 2 then some .sendProfile
  else none

/-- Decode a runner-to-recorder kind tag. -/
def decodeRunnerKind (b : Nat) : Option RunnerMessageKind :=
  if b = 0 then some .handshakeReply
  else if b = 1 then some .downloadBuildReply
  else if b = 2 then some .sendProfileReply
  else none

/-- Modelled from the spec: the encoded payload of a recorder-to-runner
message (§4.1: one variant of the directional enum). -/
def RecorderMessage.payload : RecorderMessage → List Nat
  | .handshake restart => encBool restart
  | .downloadBuild tid => encStr tid
  | .sendProfile size => encOptU64 size

/-- Modelled from the spec: the encoded payload of a runner-to-recorder
message. -/
def RunnerMessage.payload : RunnerMessage → List Nat
  | .handshakeReply r => encResultUnit r
  | .downloadBuildReply r => encResultUnit r
  | .sendProfileReply r => encResultStatus r

/-- Modelled from the spec: parse a payload as the variant corresponding to
kind `K`; the whole payload must be consumed. -/
def decodeRecorderPayload (K : RecorderMessageKind) (payload : List Nat) :
    Option RecorderMessage :=
  match K with
  | .handshake =>
    (decBool payload).bind fun p =>
      if p.2 = [] then some (.handshake p.1) else none
  | .downloadBuild =>
    (decStr payload).bind fun p =>
      if p.2 = [] then some (.downloadBuild p.1) else none
  | .sendProfile =>
    (decOptU64 payload).bind fun p =>
      if p.2 = [] then some (.sendProfile p.1) else none

/-- Modelled from the spec: parse a payload as the variant corresponding to
kind `K`; the whole payload must be consumed. -/
def decodeRunnerPayload (K : RunnerMessageKind) (payload : List Nat) :
    Option RunnerMessage :=
  match K with
  | .handshakeReply =>
    (decResultUnit payload).bind fun p =>
      if p.2 = [] then some (.handshakeReply p.1) else none
  | .downloadBuildReply =>
    (decResultUnit payload).bind fun p =>
      if p.2 = [] then some (.downloadBuildReply p.1) else none
  | .sendProfileReply =>
    (decResultStatus payload).bind fun p =>
      if p.2 = [] then some (.sendProfileReply p.1) else none

/-- Modelled from the spec: a frame is
`[len: u32 BE][kind: u8][payload of length len - 1]` (§4.1). -/
def frame (tag : Nat) (payload : List Nat) : List Nat :=
  be32 (payload.length + 1) ++ tag :: payload

/-- A message is well-sized when its frame length fits the u32 length
prefix; every message a peer can actually frame satisfies this. -/
def RecorderMessage.wellSized (m : RecorderMessage) : Prop :=
  m.payload.length + 1 < 2 ^ 32

/-- A runner-to-recorder message whose frame length fits the u32 prefix. -/
def RunnerMessage.wellSized (m : RunnerMessage) : Prop :=
  m.payload.length + 1 < 2 ^ 32

instance (m : RecorderMessage) : Decidable m.wellSized :=
  inferInstanceAs (Decidable (_ < _))

instance (m : RunnerMessage) : Decidable m.wellSized :=
  inferInstanceAs (Decidable (_ < _))

/-- Modelled from the spec: `send(m)` writes one complete frame (§4.1);
the kind tag is inferred from the variant (§4.2). -/
def sendToRunner (stream : List Nat) (m : RecorderMessage) : List Nat :=
  stream ++ frame m.kind.tag m.payload

/-- Modelled from the spec: `send(m)` for the runner-to-recorder
direction. -/
def sendToRecorder (stream : List Nat) (m : RunnerMessage) : List Nat :=
  stream ++ frame m.kind.tag m.payload

/-- Modelled from the spec: `recv_expecting(K)` for the runner side (it
receives recorder-to-runner messages): reads one complete frame, fails with
`EndOfStream` on clean close before a frame begins (or mid-frame), with
`UnexpectedKind{expected, received}` if the tag does not match `K`, and
with `Decode` if the payload cannot be parsed as the variant for `K`
(§4.1). -/
def recvExpectingFromRecorder (K : RecorderMessageKind) (stream : List Nat) :
    Except (ProtoError RecorderMessageKind) (RecorderMessage × List Nat) :=
  match readN 4 stream with
  | none => .error .endOfStream
  | some (lenBytes, rest) =>
    match rest with
    | [] => .error .endOfStream
    | kb :: rest1 =>
      match readN (beVal lenBytes - 1) rest1 with
      | none => .error .endOfStream
      | some (payload, rest2) =>
        match decodeRecorderKind kb with
        | none => .error .decodeFailed
        | some k =>
          if k = K then
            match decodeRecorderPayload K payload with
            | some msg => .ok (msg, rest2)
            | none => .error .decodeFailed
          else .error (.unexpectedKind K k)

/-- Modelled from the spec: `recv_expecting(K)` for the recorder side (it
receives runner-to-recorder messages). -/
def recvExpectingFromRunner (K : RunnerMessageKind) (stream : List Nat) :
    Except (ProtoError RunnerMessageKind) (RunnerMessage × List Nat) :=
  match readN 4 stream with
  | none => .error .endOfStream
  | some (lenBytes, rest) =>
    match rest with
    | [] => .error .endOfStream
    | kb :: rest1 =>
      match readN (beVal lenBytes - 1) rest1 with
      | none => .error .endOfStream
      | some (payload, rest2) =>
        match decodeRunnerKind kb with
        | none => .error .decodeFailed
        | some k =>
          if k = K then
            match decodeRunnerPayload K payload with
            | some msg => .ok (msg, rest2)
            | none => .error .decodeFailed
          else .error (.unexpectedKind K k)

/-! ## Error taxonomy (§7) -/

/-- Modelled from the spec: runner-side artifact-service failures (§7),
`Taskcluster(NotFound | Expired(ts) | Http(e))`.  Timestamps are modelled
as integers. -/
inductive TaskclusterError
  | notFound
  | expired (ts : Int)
  | http (msg : String)
deriving DecidableEq, Repr

/-- Modelled from the spec: the runner's procedure error type (§7): protocol
errors, `Shutdown(E)` from the restart capability (stringified errors are
modelled as `String`), artifact-service failures, and `MissingFirefox`.
`badProfile` is a modelling device for the case §4.4.1 leaves unspecified
(no identifiable profile root); no claim exercises it. -/
inductive RunnerProtoError
  | proto (e : ProtoError RecorderMessageKind)
  | shutdown (msg : String)
  | taskcluster (e : TaskclusterError)
  | missingFirefox
  | badProfile
deriving DecidableEq, Repr

/-- Modelled from the spec: the recorder's procedure error type (§7):
protocol errors and the recorder-only `SendProfileMismatch`. -/
inductive RecorderProtoError
  | proto (e : ProtoError RunnerMessageKind)
  | sendProfileMismatch (expected received : Option DownloadStatus)
deriving DecidableEq, Repr

/-! ## Runner procedures (§4.4) -/

/-- Modelled from the spec: the runner's `handshake_reply` procedure (§4.4)
at the byte-stream level.  `restartRes` is the result of the injected
restart capability (`initiate_restart`); the result pairs the bytes the
runner sends with its local return value.  The final fallback arm is
unreachable: `recv_expecting(Handshake)` only yields `Handshake`
messages. -/
def handshakeReplyBytes (restartRes : Except String Unit)
    (stream : List Nat) : List Nat × Except RunnerProtoError Bool :=
  match recvExpectingFromRecorder .handshake stream with
  | .error e => ([], .error (.proto e))
  | .ok (m, _) =>
    match m with
    | .handshake true =>
      match restartRes with
      | .error e =>
        (sendToRecorder [] (.handshakeReply (.error e)), .error (.shutdown e))
      | .ok () =>
        (sendToRecorder [] (.handshakeReply (.ok ())), .ok true)
    | .handshake false =>
      (sendToRecorder [] (.handshakeReply (.ok ())), .ok false)
    | _ => ([], .error (.proto .decodeFailed))

/-! ## Message-level procedures

The typed protocol layer (§4.2) delivers whole messages; the procedures of
§4.3 and §4.4 are modelled over delivered message payloads, with the sent
messages and filesystem effects recorded explicitly. -/

/-- Modelled from the spec: the runner's `handshake_reply` procedure (§4.4)
at the message level.  It receives one recorder message and returns the
runner messages sent together with the local result (`true` when a restart
was initiated). -/
def handshakeReply (restartRes : Except String Unit) (msg : RecorderMessage) :
    List RunnerMessage × Except RunnerProtoError Bool :=
  match msg with
  | .handshake true =>
    match restartRes with
    | .error e =>
      ([.handshakeReply (.error e)], .error (.shutdown e))
    | .ok () => ([.handshakeReply (.ok ())], .ok true)
  | .handshake false => ([.handshakeReply (.ok ())], .ok false)
  | m => ([], .error (.proto (.unexpectedKind .handshake m.kind)))

/-- Modelled from the spec: the recorder's `handshake` procedure (§4.3):
send `Handshake{restart}`, receive `HandshakeReply`; if the reply carries
`Err(e)`, fail with `Foreign(e)`, otherwise succeed. -/
def recorderHandshake (_restart : Bool) (reply : Except String Unit) :
    Except RecorderProtoError Unit :=
  match reply with
  | .error e => .error (.proto (.foreign e))
  | .ok () => .ok ()

/-! ## Build download (§4.4, §6) -/

/-- Modelled from the spec: an artifact descriptor (§3): a name and an
absolute expiry timestamp (modelled as an integer). -/
structure Artifact where
  name : String
  expires : Int
deriving DecidableEq, Repr

/-- Modelled from the spec: the well-known build artifact name (§6). -/
def buildArtifactName : String := "public/build/target.zip"

/-- Modelled from the spec: the stringified form of an artifact-service
error; the claims only need that both peers use the same strings. -/
def TaskclusterError.message : TaskclusterError → String
  | .notFound => "no such artifact"
  | .expired ts => "artifact expired at " ++ toString ts
  | .http e => "http error: " ++ e

/-- Modelled from the spec: the stringified form of a runner error, used
when reporting a failure to the recorder inside a `Result` payload (§7). -/
def RunnerProtoError.message : RunnerProtoError → String
  | .proto _ => "protocol error"
  | .shutdown e => e
  | .taskcluster e => e.message
  | .missingFirefox => "downloaded build is missing firefox binary"
  | .badProfile => "could not identify profile root"

/-- Modelled from the spec: find the well-known build artifact in a listing
and check its expiry (§4.4 `download_build_reply` step 2). -/
def findBuildArtifact (now : Int) (artifacts : List Artifact) :
    Except TaskclusterError Artifact :=
  match artifacts.find? (fun a => a.name = buildArtifactName) with
  | none => .error .notFound
  | some a => if a.expires ≤ now then .error (.expired a.expires) else .ok a

/-- Outcome of the runner's `download_build_reply`: the messages sent, a
flag recording whether `stream_artifact` was invoked, and the local
result. -/
structure DownloadBuildRun where
  sent : List RunnerMessage
  fetched : Bool
  ret : Except RunnerProtoError Unit
deriving DecidableEq, Repr

/-- Modelled from the spec: the runner's `download_build_reply` (§4.4).
The injected artifact-service capability is abstracted by the listing
`artifacts`, the fetch outcome `fetchRes`, and the post-extraction
executable check `firefoxPresent`.  Any failure from steps 2-4 is sent as
`DownloadBuildReply{Err(stringified)}` before being returned locally
(step 5). -/
def downloadBuildReply (now : Int) (artifacts : List Artifact)
    (fetchRes : Except TaskclusterError Unit) (firefoxPresent : Bool)
    (msg : RecorderMessage) : DownloadBuildRun :=
  match msg with
  | .downloadBuild _ =>
    match findBuildArtifact now artifacts with
    | .error e =>
      ⟨[.downloadBuildReply (.error (RunnerProtoError.taskcluster e).message)],
        false, .error (.taskcluster e)⟩
    | .ok _ =>
      match fetchRes with
      | .error e =>
        ⟨[.downloadBuildReply
            (.error (RunnerProtoError.taskcluster e).message)],
          true, .error (.taskcluster e)⟩
      | .ok () =>
        if firefoxPresent then ⟨[.downloadBuildReply (.ok ())], true, .ok ()⟩
        else
          ⟨[.downloadBuildReply (.error RunnerProtoError.missingFirefox.message)],
            true, .error .missingFirefox⟩
  | m => ⟨[], false, .error (.proto (.unexpectedKind .downloadBuild m.kind))⟩

/-- Modelled from the spec: the recorder's `download_build` (§4.3): send
`DownloadBuild{task_id}`, receive `DownloadBuildReply`, surface `Foreign`
on `Err`. -/
def recorderDownloadBuild (_taskId : String) (reply : Except String Unit) :
    Except RecorderProtoError Unit :=
  match reply with
  | .error e => .error (.proto (.foreign e))
  | .ok () => .ok ()

/-! ## Profile transfer, recorder side (§4.3) -/

/-- Modelled from the spec: check one `SendProfileReply` payload against the
expected status; an `Err` payload surfaces as `Foreign`, a wrong status as
`SendProfileMismatch{expected, received}`. -/
def expectStatus (expected : Option DownloadStatus)
    (reply : Except String (Option DownloadStatus)) :
    Except RecorderProtoError Unit :=
  match reply with
  | .error s => .error (.proto (.foreign s))
  | .ok received =>
    if received = expected then .ok ()
    else .error (.sendProfileMismatch expected received)

/-- Check a list of expected statuses against the received replies in
order, stopping at the first failure; returns the result and the number of
replies consumed. -/
def runExpect : List (Option DownloadStatus) →
    List (Except String (Option DownloadStatus)) →
    Except RecorderProtoError Unit × Nat
  | [], _ => (.ok (), 0)
  | _ :: _, [] => (.error (.proto .endOfStream), 0)
  | e :: es, r :: rs =>
    match expectStatus e r with
    | .ok () =>
      let p := runExpect es rs
      (p.1, p.2 + 1)
    | .error err => (.error err, 1)

/-- Modelled from the spec: the reply status sequence the recorder MUST
observe (§3): `None` when no profile, else
`Some(Downloading) → Some(Downloaded) → Some(Extracted)`. -/
def requiredStatuses (profileSize : Option Nat) :
    List (Option DownloadStatus) :=
  match profileSize with
  | none => [none]
  | some _ => [some .downloading, some .downloaded, some .extracted]

/-- Outcome of the recorder's `send_profile`: the local result, the number
of runner replies consumed, and whether the raw byte phase was entered. -/
structure SendProfileRun where
  result : Except RecorderProtoError Unit
  consumed : Nat
  streamed : Bool
deriving DecidableEq, Repr

/-- Modelled from the spec: the recorder's `send_profile` (§4.3), over the
list of reply payloads delivered by the typed layer.  With no profile it
requires one `Ok(None)` reply.  With a profile it requires
`Ok(Some(Downloading))`, then streams the zip bytes (recorded in
`streamed`), then requires `Ok(Some(Downloaded))` and
`Ok(Some(Extracted))`. -/
def recorderSendProfile (profileSize : Option Nat)
    (replies : List (Except String (Option DownloadStatus))) :
    SendProfileRun :=
  match profileSize with
  | none =>
    let p := runExpect [none] replies
    ⟨p.1, p.2, false⟩
  | some _ =>
    match replies with
    | [] => ⟨.error (.proto .endOfStream), 0, false⟩
    | r :: rs =>
      match expectStatus (some .downloading) r with
      | .error err => ⟨.error err, 1, false⟩
      | .ok () =>
        let p := runExpect [some .downloaded, some .extracted] rs
        ⟨p.1, p.2 + 1, true⟩

/-! ## Profile transfer, runner side (§4.4, §4.4.1)

The transferred zip is abstracted by its file listing: each entry is the
path of one file, as a list of path components.  Extraction into a
directory writes each entry under that directory. -/

/-- The well-known profile file names the tests assert (§4.4.1). -/
def profileFiles : List String := ["places.sqlite", "prefs.js", "user.js"]

/-- Modelled from the spec: whether a file listing directly contains the
expected profile files at its top level (§4.4.1). -/
def directlyContainsProfile (entries : List (List String)) : Bool :=
  profileFiles.all (fun f => entries.contains [f])

/-- The top-level directories of a file listing: first components of
entries that have at least two components. -/
def topLevelDirs (entries : List (List String)) : List String :=
  (entries.filterMap (fun p =>
    match p with
    | x :: _ :: _ => some x
    | _ => none)).dedup

/-- The listing seen from inside top-level directory `d`. -/
def stripDir (d : String) (entries : List (List String)) :
    List (List String) :=
  entries.filterMap (fun p =>
    match p with
    | x :: rest => if x = d then some rest else none
    | [] => none)

/-- Modelled from the spec: profile-root identification (§4.4.1): the
extraction directory itself if it directly contains the expected profile
files, else its sole subdirectory if there is exactly one, and it contains
the expected profile files. -/
def profileRoot (extractDir : List String) (entries : List (List String)) :
    Option (List String) :=
  if directlyContainsProfile entries then some extractDir
  else
    match topLevelDirs entries with
    | [d] =>
      if directlyContainsProfile (stripDir d entries) then
        some (extractDir ++ [d])
      else none
    | _ => none

/-- Outcome of the runner's `send_profile_reply`: the reply payloads sent,
the file paths written under the download directory, and the local
result. -/
structure SendProfileReplyRun where
  sent : List (Except String (Option DownloadStatus))
  written : List (List String)
  ret : Except RunnerProtoError (Option (List String))
deriving DecidableEq, Repr

/-- Modelled from the spec: the runner's `send_profile_reply` (§4.4).  With
no profile announced it replies `Ok(None)`, writes nothing and returns
`None`.  With a profile it replies `Ok(Some(Downloading))`, copies the raw
bytes into `download_dir/profile.zip`, replies `Ok(Some(Downloaded))`,
extracts the zip into `download_dir/profile/`, identifies the profile root
(§4.4.1), replies `Ok(Some(Extracted))` and returns the root path. -/
def sendProfileReply (downloadDir : List String) (profileSize : Option Nat)
    (zipEntries : List (List String)) : SendProfileReplyRun :=
  match profileSize with
  | none => ⟨[.ok none], [], .ok none⟩
  | some _ =>
    let extractDir := downloadDir ++ ["profile"]
    let written :=
      (downloadDir ++ ["profile.zip"]) ::
        zipEntries.map (fun p => extractDir ++ p)
    match profileRoot extractDir zipEntries with
    | some root =>
      ⟨[.ok (some .downloading), .ok (some .downloaded),
          .ok (some .extracted)], written, .ok (some root)⟩
    | none =>
      ⟨[.ok (some .downloading), .ok (some .downloaded)], written,
        .error .badProfile⟩

/-! ## Retry harness (§4.5) -/

/-- Modelled from the spec: the composite error returned when
`delayed_exponential_retry` gives up, carrying the most recent cause as its
`source`. -/
inductive RetryError (E : Type)
  | givenUp (source : Option E)
deriving DecidableEq, Repr

/-- Modelled from the spec: the retry loop (§4.5).  `op i` is the outcome
of attempt number `i`; each attempt is preceded by a sleep, and the delay
doubles after each failure.  Returns the list of waits performed and the
final outcome. -/
def retryFrom {E A : Type} (op : Nat → Except E A) :
    Nat → Nat → Nat → List Nat × Except (RetryError E) A
  | 0, _, _ => ([], .error (.givenUp none))
  | n + 1, delay, i =>
    match op i with
    | .ok a => ([delay], .ok a)
    | .error e =>
      match n with
      | 0 => ([delay], .error (.givenUp (some e)))
      | m + 1 =>
        let p := retryFrom op (m + 1) (2 * delay) (i + 1)
        (delay :: p.1, p.2)

/-- Modelled from the spec: `delayed_exponential_retry(op, base_delay,
max_attempts)` (§4.5): sleep `base_delay`, attempt `op`; on failure double
the delay and retry; give up after `max_attempts` attempts. -/
def delayedExponentialRetry {E A : Type} (op : Nat → Except E A)
    (baseDelay maxAttempts : Nat) : List Nat × Except (RetryError E) A :=
  retryFrom op maxAttempts baseDelay 0

/-! ## The recorder driver, embedded from `src/fxrecorder/src/bin/main.rs` -/

/-- The recorder-side session states of the spec's state machine (§4.3). -/
inductive RecorderState
  | fresh
  | handshook1
  | reconnected
  | handshook2
  | buildDownloaded
  | profileSent
  | done
deriving DecidableEq, Repr

/-- A protocol procedure invocation issued by the recorder driver. -/
inductive ProcCall
  | handshake (restart : Bool)
  | downloadBuild (taskId : String)
  | sendProfile
deriving DecidableEq, Repr

/-- The driver's error type (`Box<dyn Error>` in the source): a procedure
error, or failure of the reconnect retry loop. -/
inductive DriverError
  | proto (e : RecorderProtoError)
  | connectFailed
deriving DecidableEq, Repr

/-- The environment a driver run observes: the runner's reply payloads for
each procedure and whether the post-reboot reconnect succeeds. -/
structure DriverEnv where
  hs1Reply : Except String Unit
  reconnected : Bool
  hs2Reply : Except String Unit
  downloadReply : Except String Unit
deriving DecidableEq, Repr

/-- The recorder driver `fxrecorder`, embedded from
`src/fxrecorder/src/bin/main.rs` (lines 38-75): connect and
`handshake(true)` on the first connection; reconnect via
`delayed_exponential_retry(_, 30 s, 4)`; then `handshake(false)` and
`download_build(task_id)` on the second connection; then return `Ok`.
The result records the procedure calls issued, the session states passed
through, and the driver's outcome. -/
def fxrecorder (taskId : String) (env : DriverEnv) :
    List ProcCall × List RecorderState × Except DriverError Unit :=
  match recorderHandshake true env.hs1Reply with
  | .error e => ([.handshake true], [.fresh], .error (.proto e))
  | .ok () =>
    if env.reconnected then
      match recorderHandshake false env.hs2Reply with
      | .error e =>
        ([.handshake true, .handshake false],
          [.fresh, .handshook1, .reconnected], .error (.proto e))
      | .ok () =>
        match recorderDownloadBuild taskId env.downloadReply with
        | .error e =>
          ([.handshake true, .handshake false, .downloadBuild taskId],
            [.fresh, .handshook1, .reconnected, .handshook2],
            .error (.proto e))
        | .ok () =>
          ([.handshake true, .handshake false, .downloadBuild taskId],
            [.fresh, .handshook1, .reconnected, .handshook2,
              .buildDownloaded, .done],
            .ok ())
    else
      ([.handshake true], [.fresh, .handshook1], .error .connectFailed)

/-! ## Theorems -/

theorem be32_length (n : Nat) : (be32 n).length = 4 := rfl

theorem be64_length (n : Nat) : (be64 n).length = 8 := rfl

theorem beVal_be32 (n : Nat) (h : n < 2 ^ 32) : beVal (be32 n) = n := by
  simp only [be32, beVal, List.foldl]
  omega

theorem beVal_be64 (n : Nat) (h : n < 2 ^ 64) : beVal (be64 n) = n := by
  simp only [be64, beVal, List.foldl]
  omega

theorem readN_append (xs ys : List Nat) (n : Nat) (h : xs.length = n) :
    readN n (xs ++ ys) = some (xs, ys) := by
  subst h
  simp [readN, List.take_left, List.drop_left]

theorem readChars_append (cs : List Char) (rest : List Nat) :
    readChars cs.length (cs.flatMap (fun c => be32 c.toNat) ++ rest) =
      some (cs, rest) := by
  induction cs generalizing rest with
  | nil => rfl
  | cons c cs ih =>
    simp only [List.flatMap_cons, List.length_cons, List.append_assoc, readChars]
    rw [readN_append _ _ _ (be32_length c.toNat)]
    simp only [Option.some_bind, ih, Option.map_some]
    rw [beVal_be32 c.toNat c.val.toNat_lt, Char.ofNat_toNat]
    rfl

theorem decStr_append (s : String) (rest : List Nat) (h : s.length < 2 ^ 32) :
    decStr (encStr s ++ rest) = some (s, rest) := by
  have hlen : s.data.length = s.length := rfl
  simp only [encStr, decStr, List.append_assoc]
  rw [readN_append _ _ _ (be32_length s.length)]
  simp only [Option.some_bind]
  rw [beVal_be32 s.length h, ← hlen, readChars_append s.data rest]
  rfl

theorem encStr_length (s : String) : (encStr s).length = 4 + 4 * s.length := by
  have hfl : ∀ cs : List Char,
      (cs.flatMap (fun c => be32 c.toNat)).length = 4 * cs.length := by
    intro cs
    induction cs with
    | nil => rfl
    | cons c cs ih =>
      simp only [List.flatMap_cons, List.length_append, List.length_cons, ih,
        be32_length]
      omega
  simp only [encStr, List.length_append, hfl, be32_length]
  rfl

theorem decOptU64_append (n : Option U64) (rest : List Nat) :
    decOptU64 (encOptU64 n ++ rest) = some (n, rest) := by
  match n with
  | none => rfl
  | some m =>
    have hb : beVal (be64 m.val) = m.val := beVal_be64 m.val m.isLt
    simp only [encOptU64, List.cons_append, decOptU64]
    rw [if_neg one_ne_zero, if_pos trivial,
      readN_append _ _ _ (be64_length m.val)]
    simp only [Option.some_bind]
    rw [dif_pos (show beVal (be64 m.val) < 2 ^ 64 by rw [hb]; exact m.isLt)]
    simp [Fin.ext_iff, hb]

theorem decBool_append (b : Bool) (rest : List Nat) :
    decBool (encBool b ++ rest) = some (b, rest) := by
  cases b <;> rfl

theorem decOptStatus_append (st : Option DownloadStatus) (rest : List Nat) :
    decOptStatus (encOptStatus st ++ rest) = some (st, rest) := by
  rcases st with _ | s
  · rfl
  · cases s <;> rfl

theorem decResultUnit_append (r : Except String Unit) (rest : List Nat)
    (h : ∀ s, r = Except.error s → s.length < 2 ^ 32) :
    decResultUnit (encResultUnit r ++ rest) = some (r, rest) := by
  match r with
  | .ok () => rfl
  | .error s =>
    simp only [encResultUnit, List.cons_append, decResultUnit]
    rw [if_neg one_ne_zero, if_pos trivial, decStr_append s rest (h s rfl)]
    rfl

theorem decResultStatus_append (r : Except String (Option DownloadStatus))
    (rest : List Nat) (h : ∀ s, r = Except.error s → s.length < 2 ^ 32) :
    decResultStatus (encResultStatus r ++ rest) = some (r, rest) := by
  match r with
  | .ok st =>
    simp only [encResultStatus, List.cons_append, decResultStatus]
    rw [if_pos trivial, decOptStatus_append st rest]
    rfl
  | .error s =>
    simp only [encResultStatus, List.cons_append, decResultStatus]
    rw [if_neg one_ne_zero, if_pos trivial, decStr_append s rest (h s rfl)]
    rfl

theorem readN_self (xs : List Nat) : readN xs.length xs = some (xs, []) := by
  have := readN_append xs [] xs.length rfl
  rwa [List.append_nil] at this

theorem decodeRecorderKind_tag (k : RecorderMessageKind) :
    decodeRecorderKind k.tag = some k := by
  cases k <;> rfl

theorem decodeRunnerKind_tag (k : RunnerMessageKind) :
    decodeRunnerKind k.tag = some k := by
  cases k <;> rfl

theorem decodeRecorderPayload_self (m : RecorderMessage) (h : m.wellSized) :
    decodeRecorderPayload m.kind m.payload = some m := by
  match m with
  | .handshake b =>
    simp only [RecorderMessage.kind, RecorderMessage.payload,
      decodeRecorderPayload]
    rw [← List.append_nil (encBool b), decBool_append]
    rfl
  | .downloadBuild tid =>
    have hlen : tid.length < 2 ^ 32 := by
      simp only [RecorderMessage.wellSized, RecorderMessage.payload,
        encStr_length] at h
      omega
    simp only [RecorderMessage.kind, RecorderMessage.payload,
      decodeRecorderPayload]
    rw [← List.append_nil (encStr tid), decStr_append tid [] hlen]
    rfl
  | .sendProfile size =>
    simp only [RecorderMessage.kind, RecorderMessage.payload,
      decodeRecorderPayload]
    rw [← List.append_nil (encOptU64 size), decOptU64_append]
    rfl

theorem decodeRunnerPayload_self (m : RunnerMessage) (h : m.wellSized) :
    decodeRunnerPayload m.kind m.payload = some m := by
  match m with
  | .handshakeReply r =>
    have hs : ∀ s, r = Except.error s → s.length < 2 ^ 32 := by
      intro s hr
      subst hr
      simp only [RunnerMessage.wellSized, RunnerMessage.payload, encResultUnit,
        List.length_cons, encStr_length] at h
      omega
    simp only [RunnerMessage.kind, RunnerMessage.payload, decodeRunnerPayload]
    rw [← List.append_nil (encResultUnit r), decResultUnit_append r [] hs]
    rfl
  | .downloadBuildReply r =>
    have hs : ∀ s, r = Except.error s → s.length < 2 ^ 32 := by
      intro s hr
      subst hr
      simp only [RunnerMessage.wellSized, RunnerMessage.payload, encResultUnit,
        List.length_cons, encStr_length] at h
      omega
    simp only [RunnerMessage.kind, RunnerMessage.payload, decodeRunnerPayload]
    rw [← List.append_nil (encResultUnit r), decResultUnit_append r [] hs]
    rfl
  | .sendProfileReply r =>
    have hs : ∀ s, r = Except.error s → s.length < 2 ^ 32 := by
      intro s hr
      subst hr
      simp only [RunnerMessage.wellSized, RunnerMessage.payload,
        encResultStatus, List.length_cons, encStr_length] at h
      omega
    simp only [RunnerMessage.kind, RunnerMessage.payload, decodeRunnerPayload]
    rw [← List.append_nil (encResultStatus r), decResultStatus_append r [] hs]
    rfl

theorem recvExpectingFromRecorder_frame (K : RecorderMessageKind)
    (m : RecorderMessage) (h : m.wellSized) :
    recvExpectingFromRecorder K (frame m.kind.tag m.payload) =
      if m.kind = K then .ok (m, [])
      else .error (.unexpectedKind K m.kind) := by
  have hlen : m.payload.length + 1 < 2 ^ 32 := h
  simp only [recvExpectingFromRecorder, frame]
  rw [readN_append _ _ _ (be32_length _)]
  simp only [beVal_be32 _ hlen, Nat.add_sub_cancel, readN_self,
    decodeRecorderKind_tag]
  by_cases hK : m.kind = K
  · subst hK
    simp only [if_pos rfl, decodeRecorderPayload_self m h]
  · simp only [if_neg hK]

theorem recvExpectingFromRunner_frame (K : RunnerMessageKind)
    (m : RunnerMessage) (h : m.wellSized) :
    recvExpectingFromRunner K (frame m.kind.tag m.payload) =
      if m.kind = K then .ok (m, [])
      else .error (.unexpectedKind K m.kind) := by
  have hlen : m.payload.length + 1 < 2 ^ 32 := h
  simp only [recvExpectingFromRunner, frame]
  rw [readN_append _ _ _ (be32_length _)]
  simp only [beVal_be32 _ hlen, Nat.add_sub_cancel, readN_self,
    decodeRunnerKind_tag]
  by_cases hK : m.kind = K
  · subst hK
    simp only [if_pos rfl, decodeRunnerPayload_self m h]
  · simp only [if_neg hK]

/-- C3: for every valid message `m`, receiving with expected kind `kind(m)`
immediately after `send(m)` yields exactly `m`; and for every message `m'`
whose kind differs from the expected kind `K`, `recv_expecting(K)` after
`send(m')` fails with `UnexpectedKind{expected: K, received: kind(m')}`.
Both directions of the protocol are covered. -/
theorem frame_roundtrip_claim :
    (∀ m : RecorderMessage, m.wellSized →
      recvExpectingFromRecorder m.kind (sendToRunner [] m) = .ok (m, []))
    ∧ (∀ (m : RecorderMessage) (K : RecorderMessageKind), m.wellSized →
        m.kind ≠ K →
        recvExpectingFromRecorder K (sendToRunner [] m) =
          .error (.unexpectedKind K m.kind))
    ∧ (∀ m : RunnerMessage, m.wellSized →
        recvExpectingFromRunner m.kind (sendToRecorder [] m) = .ok (m, []))
    ∧ (∀ (m : RunnerMessage) (K : RunnerMessageKind), m.wellSized →
        m.kind ≠ K →
        recvExpectingFromRunner K (sendToRecorder [] m) =
          .error (.unexpectedKind K m.kind)) := by
  refine ⟨fun m h => ?_, fun m K h hne => ?_, fun m h => ?_,
    fun m K h hne => ?_⟩
  · rw [sendToRunner, List.nil_append, recvExpectingFromRecorder_frame _ m h,
      if_pos rfl]
  · rw [sendToRunner, List.nil_append, recvExpectingFromRecorder_frame _ m h,
      if_neg hne]
  · rw [sendToRecorder, List.nil_append, recvExpectingFromRunner_frame _ m h,
      if_pos rfl]
  · rw [sendToRecorder, List.nil_append, recvExpectingFromRunner_frame _ m h,
      if_neg hne]

/-- Witness for C3: the round trip and the kind mismatch evaluated at
concrete messages. -/
theorem frame_roundtrip_claim_witness :
    (recvExpectingFromRecorder .handshake (sendToRunner [] (.handshake true)) =
      .ok (.handshake true, []))
    ∧ (recvExpectingFromRecorder .downloadBuild
        (sendToRunner [] (.handshake true)) =
        .error (.unexpectedKind .downloadBuild .handshake))
    ∧ (recvExpectingFromRunner .handshakeReply
        (sendToRecorder [] (.handshakeReply (.ok ()))) =
        .ok (.handshakeReply (.ok ()), []))
    ∧ (recvExpectingFromRunner .sendProfileReply
        (sendToRecorder [] (.handshakeReply (.ok ()))) =
        .error (.unexpectedKind .sendProfileReply .handshakeReply)) :=
  ⟨frame_roundtrip_claim.1 (.handshake true) (by decide),
   frame_roundtrip_claim.2.1 (.handshake true) .downloadBuild (by decide)
     (by decide),
   frame_roundtrip_claim.2.2.1 (.handshakeReply (.ok ())) (by decide),
   frame_roundtrip_claim.2.2.2 (.handshakeReply (.ok ())) .sendProfileReply
     (by decide) (by decide)⟩

/-- C10: if the recorder closes its connection cleanly before sending any
frame (an empty stream), the runner's `handshake_reply` fails
deterministically with `EndOfStream`, never with `Io`: the close is
observed at a frame boundary before any bytes of a frame have been read. -/
theorem handshake_reply_clean_close_claim :
    ∀ restartRes : Except String Unit,
      handshakeReplyBytes restartRes [] =
        ([], .error (.proto .endOfStream))
      ∧ ∀ s, (handshakeReplyBytes restartRes []).2 ≠
          .error (.proto (.io s)) := by
  intro restartRes
  refine ⟨rfl, fun s => ?_⟩
  intro h
  simp only [handshakeReplyBytes, recvExpectingFromRecorder, readN] at h
  cases h

/-- C4: if the runner receives `Handshake{restart: true}` and its restart
capability fails with error `e`, the runner sends `HandshakeReply` carrying
`Err(stringified e)`, `handshake_reply` returns the `Shutdown` error
locally, and the recorder's `handshake(true)` on that reply fails with
`Foreign` whose message string equals the string of `e`. -/
theorem handshake_restart_failure_claim :
    ∀ e : String,
      handshakeReply (.error e) (.handshake true) =
        ([.handshakeReply (.error e)], .error (.shutdown e))
      ∧ recorderHandshake true (.error e) =
          .error (.proto (.foreign e)) := by
  intro e
  exact ⟨rfl, rfl⟩

/-- C5: for every artifact listing in which the well-known build artifact
has `expires ≤ now` at lookup time, `download_build_reply` fails with
`Taskcluster(Expired(expires))` and the runner performs no artifact fetch
(`stream_artifact` is never invoked). -/
theorem expired_artifact_claim :
    ∀ (now : Int) (artifacts : List Artifact)
      (fetchRes : Except TaskclusterError Unit) (firefoxPresent : Bool)
      (tid : String) (a : Artifact),
      artifacts.find? (fun x => x.name = buildArtifactName) = some a →
      a.expires ≤ now →
      downloadBuildReply now artifacts fetchRes firefoxPresent
          (.downloadBuild tid) =
        ⟨[.downloadBuildReply
            (.error (RunnerProtoError.taskcluster (.expired a.expires)).message)],
          false, .error (.taskcluster (.expired a.expires))⟩ := by
  intro now artifacts fetchRes firefoxPresent tid a hfind hexp
  simp only [downloadBuildReply, findBuildArtifact, hfind, if_pos hexp]

/-- Witness for C5: a listing whose sole artifact is the build artifact,
expired one day before the lookup time. -/
theorem expired_artifact_claim_witness :
    downloadBuildReply 0 [⟨"public/build/target.zip", -86400⟩] (.ok ()) true
        (.downloadBuild "foo") =
      ⟨[.downloadBuildReply
          (.error (RunnerProtoError.taskcluster (.expired (-86400))).message)],
        false, .error (.taskcluster (.expired (-86400)))⟩ :=
  expired_artifact_claim 0 [⟨"public/build/target.zip", -86400⟩] (.ok ()) true
    "foo" ⟨"public/build/target.zip", -86400⟩ (by decide) (by decide)

/-- C6: every failure arising in the runner's `download_build_reply` is
sent as `DownloadBuildReply{Err(stringified)}` before being returned in
structured form locally, and the recorder's `download_build` on that reply
fails with `Foreign` whose message equals the string form of the runner's
local error. -/
theorem download_build_error_propagation_claim :
    ∀ (now : Int) (artifacts : List Artifact)
      (fetchRes : Except TaskclusterError Unit) (firefoxPresent : Bool)
      (tid : String) (err : RunnerProtoError),
      (downloadBuildReply now artifacts fetchRes firefoxPresent
          (.downloadBuild tid)).ret = .error err →
      (downloadBuildReply now artifacts fetchRes firefoxPresent
          (.downloadBuild tid)).sent =
        [.downloadBuildReply (.error err.message)]
      ∧ recorderDownloadBuild tid (.error err.message) =
          .error (.proto (.foreign err.message)) := by
  intro now artifacts fetchRes firefoxPresent tid err
  cases hfind : findBuildArtifact now artifacts with
  | error e =>
    simp only [downloadBuildReply, hfind]
    intro h
    simp only [Except.error.injEq] at h
    subst h
    exact ⟨rfl, rfl⟩
  | ok a =>
    cases fetchRes with
    | error e =>
      simp only [downloadBuildReply, hfind]
      intro h
      simp only [Except.error.injEq] at h
      subst h
      exact ⟨rfl, rfl⟩
    | ok u =>
      cases u
      cases firefoxPresent with
      | false =>
        simp only [downloadBuildReply, hfind, if_neg Bool.false_ne_true]
        intro h
        simp only [Except.error.injEq] at h
        subst h
        exact ⟨rfl, rfl⟩
      | true =>
        simp only [downloadBuildReply, hfind, if_pos rfl]
        intro h
        cases h

/-- Witness for C6: an empty artifact listing, producing
`Taskcluster(NotFound)` on the runner and a matching `Foreign` on the
recorder. -/
theorem download_build_error_propagation_claim_witness :
    (downloadBuildReply 0 [] (.ok ()) true (.downloadBuild "foo")).sent =
      [.downloadBuildReply
        (.error (RunnerProtoError.taskcluster .notFound).message)]
    ∧ recorderDownloadBuild "foo"
        (.error (RunnerProtoError.taskcluster .notFound).message) =
      .error (.proto (.foreign (RunnerProtoError.taskcluster .notFound).message)) :=
  download_build_error_propagation_claim 0 [] (.ok ()) true "foo"
    (.taskcluster .notFound) rfl

/-- C2: whenever the runner's reply sequence diverges (with an `Ok` reply)
from the required status order at position `i`, the recorder's
`send_profile` fails with `SendProfileMismatch` carrying exactly the
expected and the received status at that first point of divergence,
consumes no further replies, and, if the divergence precedes the raw byte
phase, does not stream the profile bytes. -/
theorem send_profile_mismatch_claim :
    ∀ (profileSize : Option Nat)
      (replies : List (Except String (Option DownloadStatus)))
      (i : Nat) (e r : Option DownloadStatus),
      (requiredStatuses profileSize).get? i = some e →
      (∀ j, j < i →
        replies.get? j = ((requiredStatuses profileSize).get? j).map .ok) →
      replies.get? i = some (.ok r) →
      r ≠ e →
      (recorderSendProfile profileSize replies).result =
        .error (.sendProfileMismatch e r)
      ∧ (recorderSendProfile profileSize replies).consumed = i + 1
      ∧ (profileSize.isSome → i = 0 →
          (recorderSendProfile profileSize replies).streamed = false) := by
  intro profileSize replies i e r he hpre hr hne
  match profileSize with
  | none =>
    match i with
    | 0 =>
      simp only [requiredStatuses, List.get?] at he
      cases he
      match replies, hr with
      | .ok r' :: rs, hr =>
        simp only [List.get?, Option.some.injEq, Except.ok.injEq] at hr
        subst hr
        simp only [recorderSendProfile, runExpect, expectStatus, if_neg hne]
        simp
    | n + 1 =>
      simp only [requiredStatuses, List.get?] at he
      cases he
  | some sz =>
    match i with
    | 0 =>
      simp only [requiredStatuses, List.get?] at he
      cases he
      match replies, hr with
      | .ok r' :: rs, hr =>
        simp only [List.get?, Option.some.injEq, Except.ok.injEq] at hr
        subst hr
        simp only [recorderSendProfile, expectStatus, if_neg hne]
        simp
    | 1 =>
      simp only [requiredStatuses, List.get?] at he
      cases he
      have h0 := hpre 0 (by omega)
      simp only [requiredStatuses, List.get?, Option.map_some] at h0
      match replies, h0 with
      | r0 :: rs, h0 =>
        simp only [List.get?] at h0
        cases h0
        simp only [List.get?] at hr
        match rs, hr with
        | .ok r' :: rs', hr =>
          simp only [List.get?, Option.some.injEq, Except.ok.injEq] at hr
          subst hr
          simp only [recorderSendProfile, expectStatus, if_pos rfl,
            runExpect, if_neg hne]
          simp
    | 2 =>
      simp only [requiredStatuses, List.get?] at he
      cases he
      have h0 := hpre 0 (by omega)
      have h1 := hpre 1 (by omega)
      simp only [requiredStatuses, List.get?, Option.map_some] at h0 h1
      match replies, h0 with
      | r0 :: rs, h0 =>
        simp only [List.get?] at h0
        cases h0
        simp only [List.get?] at h1 hr
        match rs, h1 with
        | r1 :: rs', h1 =>
          simp only [List.get?] at h1
          cases h1
          simp only [List.get?] at hr
          match rs', hr with
          | .ok r' :: rs'', hr =>
            simp only [List.get?, Option.some.injEq, Except.ok.injEq] at hr
            subst hr
            simp only [recorderSendProfile, expectStatus, if_pos rfl,
              runExpect, if_neg hne]
            simp
    | n + 3 =>
      simp only [requiredStatuses, List.get?] at he
      cases he

/-- Witness for C2: the runner replies `Ok(Some(Extracted))` where
`Ok(Some(Downloading))` is required (seed test 8): the recorder fails with
`SendProfileMismatch{expected: Some(Downloading), received:
Some(Extracted)}` after one reply and streams nothing. -/
theorem send_profile_mismatch_claim_witness :
    (recorderSendProfile (some 1) [.ok (some .extracted)]).result =
      .error (.sendProfileMismatch (some .downloading) (some .extracted))
    ∧ (recorderSendProfile (some 1) [.ok (some .extracted)]).consumed = 1
    ∧ (recorderSendProfile (some 1) [.ok (some .extracted)]).streamed =
        false := by
  have h := send_profile_mismatch_claim (some 1) [.ok (some .extracted)] 0
    (some .downloading) (some .extracted) rfl (fun j hj => by omega) rfl
    (by decide)
  exact ⟨h.1, h.2.1, h.2.2 rfl rfl⟩

theorem dedup_eq_singleton (d : String) :
    ∀ l : List String, l ≠ [] → (∀ x ∈ l, x = d) → l.dedup = [d] := by
  intro l
  induction l with
  | nil => intro h _; exact absurd rfl h
  | cons a t ih =>
    intro _ hall
    have ha : a = d := hall a (List.mem_cons_self a t)
    subst ha
    cases t with
    | nil => rfl
    | cons b t' =>
      have hb : b = a := hall b (by simp)
      have hmem : a ∈ b :: t' := by rw [hb]; exact List.mem_cons_self a t'
      rw [List.dedup_cons_of_mem hmem]
      exact ih (by simp) (fun x hx => hall x (List.mem_cons_of_mem a hx))

theorem filterMap_wrapped (d : String) :
    ∀ entries : List (List String),
      (∀ p ∈ entries, ∃ f rest, p = d :: f :: rest) →
      entries.filterMap (fun p =>
        match p with
        | x :: _ :: _ => some x
        | _ => none) = entries.map (fun _ => d) := by
  intro entries
  induction entries with
  | nil => intro _; rfl
  | cons a t ih =>
    intro hwrap
    obtain ⟨f, rest, ha⟩ := hwrap a (List.mem_cons_self a t)
    subst ha
    simp only [List.filterMap_cons, List.map_cons]
    rw [ih (fun p hp => hwrap p (List.mem_cons_of_mem _ hp))]

theorem topLevelDirs_wrapped (d : String) (entries : List (List String))
    (hne : entries ≠ [])
    (hwrap : ∀ p ∈ entries, ∃ f rest, p = d :: f :: rest) :
    topLevelDirs entries = [d] := by
  rw [topLevelDirs, filterMap_wrapped d entries hwrap]
  apply dedup_eq_singleton
  · intro hnil
    exact hne (List.map_eq_nil_iff.mp hnil)
  · intro x hx
    obtain ⟨a, _, hax⟩ := List.mem_map.mp hx
    exact hax.symm

theorem directlyContains_wrapped_false (d : String)
    (entries : List (List String))
    (hwrap : ∀ p ∈ entries, ∃ f rest, p = d :: f :: rest) :
    directlyContainsProfile entries = false := by
  have hnot : ¬ (["places.sqlite"] ∈ entries) := by
    intro hmem
    obtain ⟨f, rest, h⟩ := hwrap _ hmem
    cases h
  have hc : entries.contains ["places.sqlite"] = false := by
    cases hcontains : entries.contains ["places.sqlite"] with
    | false => rfl
    | true => exact absurd (List.elem_iff.mp hcontains) hnot
  simp only [directlyContainsProfile, profileFiles, List.all_cons, hc,
    Bool.false_and]

/-- C8: when the transferred profile zip wraps its contents in a single
top-level directory `d`, `send_profile_reply` returns the sole subdirectory
`download_dir/profile/d` as the profile root, and that directory contains
the profile files; when the zip's contents are not wrapped (the listing
directly contains the profile files), it returns `download_dir/profile`
itself. -/
theorem profile_root_claim :
    (∀ (downloadDir : List String) (n : Nat) (d : String)
        (entries : List (List String)),
      entries ≠ [] →
      (∀ p ∈ entries, ∃ f rest, p = d :: f :: rest) →
      (∀ f ∈ profileFiles, [d, f] ∈ entries) →
      (sendProfileReply downloadDir (some n) entries).ret =
        .ok (some (downloadDir ++ ["profile", d]))
      ∧ ∀ f ∈ profileFiles,
          (downloadDir ++ ["profile", d, f]) ∈
            (sendProfileReply downloadDir (some n) entries).written)
    ∧ (∀ (downloadDir : List String) (n : Nat)
        (entries : List (List String)),
      directlyContainsProfile entries = true →
      (sendProfileReply downloadDir (some n) entries).ret =
        .ok (some (downloadDir ++ ["profile"]))) := by
  constructor
  · intro dlDir n d entries hne hwrap hfiles
    have hdirect := directlyContains_wrapped_false d entries hwrap
    have htop := topLevelDirs_wrapped d entries hne hwrap
    have hstrip : directlyContainsProfile (stripDir d entries) = true := by
      simp only [directlyContainsProfile, List.all_eq_true]
      intro f hf
      apply List.elem_iff.mpr
      apply List.mem_filterMap.mpr
      exact ⟨[d, f], hfiles f hf, by simp⟩
    have hroot : profileRoot (dlDir ++ ["profile"]) entries =
        some ((dlDir ++ ["profile"]) ++ [d]) := by
      rw [profileRoot, if_neg (by simp [hdirect]), htop]
      simp [hstrip]
    constructor
    · simp only [sendProfileReply, hroot, List.append_assoc,
        List.singleton_append, List.cons_append, List.nil_append]
    · intro f hf
      simp only [sendProfileReply, hroot, List.mem_cons]
      right
      apply List.mem_map.mpr
      refine ⟨[d, f], hfiles f hf, ?_⟩
      simp
  · intro dlDir n entries hdirect
    have hroot : profileRoot (dlDir ++ ["profile"]) entries =
        some (dlDir ++ ["profile"]) := by
      rw [profileRoot, if_pos hdirect]
    simp only [sendProfileReply, hroot]

/-- Witness for C8: the nested zip `profile/{places.sqlite, prefs.js,
user.js}` yields root `profile/profile` under the download directory with
the profile files inside (seed test 7), and an unwrapped listing yields the
extraction directory itself. -/
theorem profile_root_claim_witness :
    ((sendProfileReply ["tmp"] (some 3)
        [["profile", "places.sqlite"], ["profile", "prefs.js"],
          ["profile", "user.js"]]).ret =
      .ok (some ["tmp", "profile", "profile"])
    ∧ ∀ f ∈ profileFiles,
        ("tmp" :: "profile" :: "profile" :: [f]) ∈
          (sendProfileReply ["tmp"] (some 3)
            [["profile", "places.sqlite"], ["profile", "prefs.js"],
              ["profile", "user.js"]]).written)
    ∧ (sendProfileReply ["tmp"] (some 3)
        [["places.sqlite"], ["prefs.js"], ["user.js"]]).ret =
      .ok (some ["tmp", "profile"]) := by
  constructor
  · exact profile_root_claim.1 ["tmp"] 3 "profile"
      [["profile", "places.sqlite"], ["profile", "prefs.js"],
        ["profile", "user.js"]]
      (by decide)
      (by
        intro p hp
        simp only [List.mem_cons, List.not_mem_nil, or_false] at hp
        rcases hp with h | h | h <;> subst h <;> exact ⟨_, [], rfl⟩)
      (by decide)
  · exact profile_root_claim.2 ["tmp"] 3
      [["places.sqlite"], ["prefs.js"], ["user.js"]] (by decide)

/-- C9: when the recorder calls `send_profile(None)` and the runner follows
the protocol, the runner replies `Ok(None)`, `send_profile_reply` returns
`None` and writes nothing under the download directory (in particular
neither `download_dir/profile.zip` nor `download_dir/profile` exists
afterwards), and the recorder accepts the reply. -/
theorem send_profile_none_claim :
    ∀ (downloadDir : List String) (zipEntries : List (List String)),
      sendProfileReply downloadDir none zipEntries = ⟨[.ok none], [], .ok none⟩
      ∧ recorderSendProfile none
          (sendProfileReply downloadDir none zipEntries).sent =
        ⟨.ok (), 1, false⟩
      ∧ (downloadDir ++ ["profile.zip"]) ∉
          (sendProfileReply downloadDir none zipEntries).written
      ∧ (downloadDir ++ ["profile"]) ∉
          (sendProfileReply downloadDir none zipEntries).written := by
  intro dlDir entries
  refine ⟨rfl, rfl, ?_, ?_⟩ <;> simp [sendProfileReply]

theorem retryFrom_allFail {E A : Type} (op : Nat → Except E A) (e : E) :
    ∀ (n delay i : Nat), 1 ≤ n →
      (∀ j, j < n → ∃ e', op (i + j) = .error e') →
      op (i + (n - 1)) = .error e →
      retryFrom op n delay i =
        ((List.range n).map (fun j => 2 ^ j * delay),
          .error (.givenUp (some e))) := by
  intro n
  induction n with
  | zero => intro delay i h; omega
  | succ m ih =>
    intro delay i _ hall hlast
    match m, ih with
    | 0, _ =>
      simp only [Nat.add_sub_cancel, Nat.add_zero] at hlast
      simp only [retryFrom, hlast]
      simp [List.range_succ]
    | m' + 1, ih =>
      obtain ⟨e0, h0⟩ := hall 0 (by omega)
      rw [Nat.add_zero] at h0
      have hrec := ih (2 * delay) (i + 1) (by omega)
        (fun j hj => by
          obtain ⟨e', h'⟩ := hall (j + 1) (by omega)
          exact ⟨e', by rw [← h']; ring_nf⟩)
        (by
          rw [← hlast]
          congr 1
          omega)
      have hlist :
          delay :: (List.range (m' + 1)).map (fun j => 2 ^ j * (2 * delay)) =
            (List.range (m' + 1 + 1)).map (fun j => 2 ^ j * delay) := by
        conv_rhs => rw [List.range_succ_eq_map, List.map_cons, List.map_map]
        congr 1
        · simp
        · apply List.map_congr_left
          intro j _
          simp only [Function.comp_apply]
          rw [pow_succ]
          ring
      simp only [retryFrom, h0, hrec, hlist]

/-- C7: for every base delay `d` and attempt count `k ≥ 1`, if all attempts
fail then `delayed_exponential_retry(op, d, k)` waits `d, 2d, 4d, …,
2^(k-1)·d` before attempts `1 … k`, gives up after `k` attempts with a
composite error whose source is the most recent cause, and the total wait
is `d·(2^k − 1)`; with the recorder's defaults `d = 30 s`, `k = 4` the
total is 7 minutes 30 seconds. -/
theorem retry_schedule_claim :
    ∀ (E A : Type) (op : Nat → Except E A) (d k : Nat) (e : E),
      1 ≤ k →
      (∀ j, j < k → ∃ e', op j = .error e') →
      op (k - 1) = .error e →
      (delayedExponentialRetry op d k).1 =
        (List.range k).map (fun j => 2 ^ j * d)
      ∧ (delayedExponentialRetry op d k).2 = .error (.givenUp (some e))
      ∧ ((delayedExponentialRetry op d k).1).sum = d * (2 ^ k - 1)
      ∧ (d = 30 → k = 4 →
          ((delayedExponentialRetry op d k).1).sum = 7 * 60 + 30) := by
  intro E A op d k e hk hall hlast
  have hsum : ∀ (dd kk : Nat),
      ((List.range kk).map (fun j => 2 ^ j * dd)).sum = dd * (2 ^ kk - 1) := by
    intro dd kk
    induction kk with
    | zero => rfl
    | succ m ihm =>
      rw [List.range_succ, List.map_append, List.sum_append]
      simp only [List.map_cons, List.map_nil, List.sum_cons, List.sum_nil,
        ihm]
      have h2 : (1 : Nat) ≤ 2 ^ m := Nat.one_le_two_pow
      have h3 : (1 : Nat) ≤ 2 ^ (m + 1) := Nat.one_le_two_pow
      zify [h2, h3]
      rw [pow_succ]
      ring
  have hmain := retryFrom_allFail op e k d 0 hk
    (fun j hj => by simpa using hall j hj)
    (by simpa using hlast)
  rw [delayedExponentialRetry, hmain]
  refine ⟨rfl, rfl, hsum d k, ?_⟩
  intro hd hk4
  subst hd
  subst hk4
  rw [hsum 30 4]
  norm_num

/-- Witness for C7: with the recorder's defaults (`d = 30`, `k = 4`) and an
always-failing operation, the waits are `30, 60, 120, 240`, the retry gives
up with the most recent cause, and the total wait is 7 minutes 30
seconds. -/
theorem retry_schedule_claim_witness :
    (delayedExponentialRetry
        (fun _ => (Except.error "conn refused" : Except String Unit)) 30 4).1 =
      [30, 60, 120, 240]
    ∧ (delayedExponentialRetry
        (fun _ => (Except.error "conn refused" : Except String Unit)) 30 4).2 =
      .error (.givenUp (some "conn refused"))
    ∧ ((delayedExponentialRetry
        (fun _ => (Except.error "conn refused" : Except String Unit)) 30 4).1).sum =
      7 * 60 + 30 := by
  have h := retry_schedule_claim String Unit
    (fun _ => (Except.error "conn refused" : Except String Unit)) 30 4
    "conn refused" (by norm_num) (fun j _ => ⟨"conn refused", rfl⟩) rfl
  refine ⟨?_, h.2.1, h.2.2.2 rfl rfl⟩
  rw [h.1]
  decide

/-- Counterexample to C1: a successful recorder session (all replies `Ok`,
reconnect succeeds) in which the driver never invokes `send_profile` and
never passes through `ProfileSent`: the procedure sequence is not the
claimed `handshake(true), handshake(false), download_build, send_profile`. -/
theorem driver_sequence_counterexample :
    (fxrecorder "foo" ⟨.ok (), true, .ok (), .ok ()⟩).2.2 = .ok ()
    ∧ (fxrecorder "foo" ⟨.ok (), true, .ok (), .ok ()⟩).1 ≠
        [.handshake true, .handshake false, .downloadBuild "foo",
          .sendProfile]
    ∧ ProcCall.sendProfile ∉ (fxrecorder "foo" ⟨.ok (), true, .ok (), .ok ()⟩).1
    ∧ RecorderState.profileSent ∉
        (fxrecorder "foo" ⟨.ok (), true, .ok (), .ok ()⟩).2.1 := by
  refine ⟨rfl, ?_, ?_, ?_⟩ <;> decide

/-- C1 (amended): for every successful recorder session, the driver
executes exactly `handshake(true)` on the first connection, then (after
reconnecting) `handshake(false)` and `download_build(task_id)`, in that
order, passing through the states `Fresh, Handshook1, Reconnected,
Handshook2, BuildDownloaded, Done`; the driver does not invoke
`send_profile` and there is no `ProfileSent` state in the run. -/
theorem driver_sequence_claim :
    ∀ (taskId : String) (env : DriverEnv),
      (fxrecorder taskId env).2.2 = .ok () →
      (fxrecorder taskId env).1 =
        [.handshake true, .handshake false, .downloadBuild taskId]
      ∧ (fxrecorder taskId env).2.1 =
        [.fresh, .handshook1, .reconnected, .handshook2, .buildDownloaded,
          .done] := by
  intro taskId env
  rcases env with ⟨h1, rc, h2, db⟩
  rcases h1 with e1 | u1
  · intro h
    cases h
  · cases u1
    cases rc
    · intro h
      cases h
    · rcases h2 with e2 | u2
      · intro h
        cases h
      · cases u2
        rcases db with e3 | u3
        · intro h
          cases h
        · cases u3
          intro _
          exact ⟨rfl, rfl⟩

/-- Witness for C1 (amended): the all-`Ok` environment yields a successful
run with exactly the three procedure calls and the six states. -/
theorem driver_sequence_claim_witness :
    (fxrecorder "foo" ⟨.ok (), true, .ok (), .ok ()⟩).2.2 = .ok ()
    ∧ (fxrecorder "foo" ⟨.ok (), true, .ok (), .ok ()⟩).1 =
        [.handshake true, .handshake false, .downloadBuild "foo"]
    ∧ (fxrecorder "foo" ⟨.ok (), true, .ok (), .ok ()⟩).2.1 =
        [.fresh, .handshook1, .reconnected, .handshook2, .buildDownloaded,
          .done] :=
  ⟨rfl, (driver_sequence_claim "foo" ⟨.ok (), true, .ok (), .ok ()⟩ rfl).1,
    (driver_sequence_claim "foo" ⟨.ok (), true, .ok (), .ok ()⟩ rfl).2⟩

end Fxrecord
